import Mathlib

/-!
Shallow embedding of the `ibc-rs` fragments under verification:

* `crates/ibc/src/core/ics02_client/events.rs` — the client events
  (`CreateClient`, `UpdateClient`, `ClientMisbehaviour`, `UpgradeClient`),
  their per-field attribute wrappers and their conversion to emitted
  ABCI events;
* `crates/ibc/src/services/connection.rs` — the gRPC connection query
  service (`ConnectionQueryServer`);
* `ibc-apps/ics721-nft-transfer/src/context.rs` — the NFT-transfer
  validation context trait and its defaulted `class_hash_string` method.

Rust machine integers are embedded as `Nat` (bytes are reduced mod 256 at
the point where their byte value matters); fallible Rust code returns
`Option`/`Except`.
-/

namespace Ibc

/-- Client identifier (`ClientId` from ics24_host): a validated string
wrapper; `as_str` exposes the wrapped string. -/
structure ClientId where
  val : String
deriving DecidableEq, Repr

/-- `ClientId::as_str`. -/
def ClientId.asStr (c : ClientId) : String := c.val

/-- Client type (`ClientType` from ics02_client): a validated string
wrapper; `as_str` exposes the wrapped string. -/
structure ClientType where
  val : String
deriving DecidableEq, Repr

/-- `ClientType::as_str`. -/
def ClientType.asStr (c : ClientType) : String := c.val

/-- Modelled from the spec: `Height` (ics02_client `height.rs`, not under
`src/`) is a two-part (era, index) counter. In the code the two parts are
named `revision_number` and `revision_height`. -/
structure Height where
  era : Nat
  index : Nat
deriving DecidableEq, Repr

/-- Modelled from the spec: the `Display` rendering of a `Height`
(`height.rs`, not under `src/`): a height renders as `"<era>-<index>"`. -/
def Height.render (h : Height) : String :=
  toString h.era ++ "-" ++ toString h.index

/-- `tendermint::abci::EventAttribute`: one (key, value) string pair. -/
structure EventAttribute where
  key : String
  value : String
deriving DecidableEq, Repr

/-- `tendermint::abci::Event`: a kind string plus an ordered attribute
list. -/
structure Event where
  kind : String
  attributes : List EventAttribute
deriving DecidableEq, Repr

/-- `CREATE_CLIENT_EVENT` from `events.rs`. -/
def CREATE_CLIENT_EVENT : String := "create_client"

/-- `UPDATE_CLIENT_EVENT` from `events.rs`. -/
def UPDATE_CLIENT_EVENT : String := "update_client"

/-- `CLIENT_MISBEHAVIOUR_EVENT` from `events.rs`. -/
def CLIENT_MISBEHAVIOUR_EVENT : String := "client_misbehaviour"

/-- `UPGRADE_CLIENT_EVENT` from `events.rs`. -/
def UPGRADE_CLIENT_EVENT : String := "upgrade_client"

/-- `CLIENT_ID_ATTRIBUTE_KEY` from `events.rs`. -/
def CLIENT_ID_ATTRIBUTE_KEY : String := "client_id"

/-- `CLIENT_TYPE_ATTRIBUTE_KEY` from `events.rs`. -/
def CLIENT_TYPE_ATTRIBUTE_KEY : String := "client_type"

/-- `CONSENSUS_HEIGHT_ATTRIBUTE_KEY` from `events.rs`. -/
def CONSENSUS_HEIGHT_ATTRIBUTE_KEY : String := "consensus_height"

/-- `CONSENSUS_HEIGHTS_ATTRIBUTE_KEY` from `events.rs`. -/
def CONSENSUS_HEIGHTS_ATTRIBUTE_KEY : String := "consensus_heights"

/-- `HEADER_ATTRIBUTE_KEY` from `events.rs`. -/
def HEADER_ATTRIBUTE_KEY : String := "header"

/-- `struct ClientIdAttribute` from `events.rs`. -/
structure ClientIdAttribute where
  client_id : ClientId
deriving DecidableEq, Repr

/-- `impl From<ClientIdAttribute> for abci::EventAttribute`. -/
def ClientIdAttribute.toEventAttribute (attr : ClientIdAttribute) : EventAttribute :=
  { key := CLIENT_ID_ATTRIBUTE_KEY, value := attr.client_id.asStr }

/-- `struct ClientTypeAttribute` from `events.rs`. -/
structure ClientTypeAttribute where
  client_type : ClientType
deriving DecidableEq, Repr

/-- `impl From<ClientTypeAttribute> for abci::EventAttribute`. -/
def ClientTypeAttribute.toEventAttribute (attr : ClientTypeAttribute) : EventAttribute :=
  { key := CLIENT_TYPE_ATTRIBUTE_KEY, value := attr.client_type.asStr }

/-- `struct ConsensusHeightAttribute` from `events.rs`. -/
structure ConsensusHeightAttribute where
  consensus_height : Height
deriving DecidableEq, Repr

/-- `impl From<ConsensusHeightAttribute> for abci::EventAttribute`: the
height value is rendered through its `Display` form. -/
def ConsensusHeightAttribute.toEventAttribute (attr : ConsensusHeightAttribute) :
    EventAttribute :=
  { key := CONSENSUS_HEIGHT_ATTRIBUTE_KEY, value := attr.consensus_height.render }

/-- `struct ConsensusHeightsAttribute` from `events.rs`. -/
structure ConsensusHeightsAttribute where
  consensus_heights : List Height
deriving DecidableEq, Repr

/-- `Vec<String>::join(sep)` from the Rust standard library: the empty
list joins to the empty string, and `sep` is placed between consecutive
elements. -/
def joinSep (sep : String) : List String → String
  | [] => ""
  | [s] => s
  | s :: t :: rest => s ++ sep ++ joinSep sep (t :: rest)

/-- `impl From<ConsensusHeightsAttribute> for abci::EventAttribute`: each
height is rendered to a string and the renderings are joined with `","`. -/
def ConsensusHeightsAttribute.toEventAttribute (attr : ConsensusHeightsAttribute) :
    EventAttribute :=
  { key := CONSENSUS_HEIGHTS_ATTRIBUTE_KEY
    value := joinSep "," (attr.consensus_heights.map Height.render) }

/-- `struct HeaderAttribute` from `events.rs`: the header as encoded bytes
of a protobuf `Any` envelope, kept opaque. -/
structure HeaderAttribute where
  header : List Nat
deriving DecidableEq, Repr

/-- The ASCII code of one lowercase hexadecimal digit as produced by
`subtle_encoding::hex::encode` for a nibble `n < 16`. -/
def hexDigitByte (n : Nat) : Nat :=
  if n < 10 then 48 + n else 87 + n

/-- `subtle_encoding::hex::encode`: every input byte becomes two lowercase
hexadecimal digit bytes, high nibble first. -/
def hexEncode : List Nat → List Nat
  | [] => []
  | b :: rest =>
      hexDigitByte (b % 256 / 16) :: hexDigitByte (b % 16) :: hexEncode rest

/-- Whether a byte is a UTF-8 continuation byte (`0x80..=0xBF`). -/
def utf8Cont (b : Nat) : Bool := 128 ≤ b && b < 192

/-- Whether the first continuation byte `c1` is acceptable after the lead
byte `b` of a 3-byte UTF-8 sequence (ruling out overlong forms after
`0xE0` and surrogates after `0xED`). -/
def utf8Cont3 (b c1 : Nat) : Bool :=
  if b = 224 then decide (160 ≤ c1 ∧ c1 ≤ 191)
  else if b = 237 then decide (128 ≤ c1 ∧ c1 ≤ 159)
  else utf8Cont c1

/-- Whether the first continuation byte `c1` is acceptable after the lead
byte `b` of a 4-byte UTF-8 sequence (ruling out overlong forms after
`0xF0` and code points above `0x10FFFF` after `0xF4`). -/
def utf8Cont4 (b c1 : Nat) : Bool :=
  if b = 240 then decide (144 ≤ c1 ∧ c1 ≤ 191)
  else if b = 244 then decide (128 ≤ c1 ∧ c1 ≤ 143)
  else utf8Cont c1

/-- The code point of a 2-byte UTF-8 sequence. -/
def utf8Point2 (b c1 : Nat) : Nat := (b - 192) * 64 + (c1 - 128)

/-- The code point of a 3-byte UTF-8 sequence. -/
def utf8Point3 (b c1 c2 : Nat) : Nat :=
  (b - 224) * 4096 + (c1 - 128) * 64 + (c2 - 128)

/-- The code point of a 4-byte UTF-8 sequence. -/
def utf8Point4 (b c1 c2 c3 : Nat) : Nat :=
  (b - 240) * 262144 + (c1 - 128) * 4096 + (c2 - 128) * 64 + (c3 - 128)

/-- A UTF-8 decoder over byte lists, following the byte-range table that
Rust's `String::from_utf8` validates against (lead bytes `0x00..=0x7F`
alone, `0xC2..=0xDF`, `0xE0..=0xEF` and `0xF0..=0xF4` followed by one,
two and three continuation bytes, with no overlong forms, no surrogates
and no code point above `0x10FFFF`); it returns the decoded characters,
or `none` on the first invalid sequence. The patterns are stratified by
how many bytes remain so that the recursion is structural: each pattern
handles every lead-byte class that still fits in the remaining bytes. -/
def utf8Chars : List Nat → Option (List Char)
  | [] => some []
  | [b] =>
    if b < 128 then some [Char.ofNat b] else none
  | [b, c1] =>
    if b < 128 then
      (utf8Chars [c1]).map (fun cs => Char.ofNat b :: cs)
    else if (194 ≤ b ∧ b ≤ 223) ∧ utf8Cont c1 then
      some [Char.ofNat (utf8Point2 b c1)]
    else none
  | [b, c1, c2] =>
    if b < 128 then
      (utf8Chars [c1, c2]).map (fun cs => Char.ofNat b :: cs)
    else if (194 ≤ b ∧ b ≤ 223) ∧ utf8Cont c1 then
      (utf8Chars [c2]).map (fun cs => Char.ofNat (utf8Point2 b c1) :: cs)
    else if (224 ≤ b ∧ b ≤ 239) ∧ utf8Cont3 b c1 ∧ utf8Cont c2 then
      some [Char.ofNat (utf8Point3 b c1 c2)]
    else none
  | b :: c1 :: c2 :: c3 :: rest =>
    if b < 128 then
      (utf8Chars (c1 :: c2 :: c3 :: rest)).map (fun cs => Char.ofNat b :: cs)
    else if (194 ≤ b ∧ b ≤ 223) ∧ utf8Cont c1 then
      (utf8Chars (c2 :: c3 :: rest)).map (fun cs => Char.ofNat (utf8Point2 b c1) :: cs)
    else if (224 ≤ b ∧ b ≤ 239) ∧ utf8Cont3 b c1 ∧ utf8Cont c2 then
      (utf8Chars (c3 :: rest)).map (fun cs => Char.ofNat (utf8Point3 b c1 c2) :: cs)
    else if (240 ≤ b ∧ b ≤ 244) ∧ utf8Cont4 b c1 ∧ utf8Cont c2 ∧ utf8Cont c3 then
      (utf8Chars rest).map (fun cs => Char.ofNat (utf8Point4 b c1 c2 c3) :: cs)
    else none

/-- `String::from_utf8`: succeeds exactly when the bytes are valid UTF-8,
returning the decoded string. -/
def stringFromUtf8 (l : List Nat) : Option String :=
  (utf8Chars l).map (fun cs => String.mk cs)

/-- `impl From<HeaderAttribute> for abci::EventAttribute`: the value is the
UTF-8 decoding of the hex encoding of the header bytes. The source
`.expect(..)`s the decoding; the embedding keeps the fallibility as an
`Option`, so the panic branch is the `none` case. -/
def HeaderAttribute.toEventAttribute (attr : HeaderAttribute) : Option EventAttribute :=
  (stringFromUtf8 (hexEncode attr.header)).map (fun s =>
    { key := HEADER_ATTRIBUTE_KEY, value := s })

/-- Spec-side rendering (for the refinement claims, following the spec's
words, not the code): one lowercase hexadecimal digit character for a
nibble `n < 16`, taken from the standard digit-character table (which is
lowercase for the digits 10..15). -/
def lowercaseHexDigit (n : Nat) : Char :=
  Nat.digitChar n

/-- Spec-side rendering: the characters of the lowercase hexadecimal
rendering of a byte list, two digits per byte, high nibble first. -/
def lowercaseHexChars : List Nat → List Char
  | [] => []
  | b :: rest =>
      lowercaseHexDigit (b % 256 / 16) :: lowercaseHexDigit (b % 16) ::
        lowercaseHexChars rest

/-- Spec-side rendering: the lowercase hexadecimal string of a byte list,
with no prefix and two digits per byte. -/
def lowercaseHex (bytes : List Nat) : String :=
  String.mk (lowercaseHexChars bytes)

/-- `struct CreateClient` from `events.rs`. -/
structure CreateClient where
  client_id : ClientIdAttribute
  client_type : ClientTypeAttribute
  consensus_height : ConsensusHeightAttribute
deriving DecidableEq, Repr

/-- `CreateClient::new`. -/
def CreateClient.new (client_id : ClientId) (client_type : ClientType)
    (consensus_height : Height) : CreateClient :=
  { client_id := { client_id := client_id }
    client_type := { client_type := client_type }
    consensus_height := { consensus_height := consensus_height } }

/-- `CreateClient::client_id` accessor. -/
def CreateClient.clientId (c : CreateClient) : ClientId := c.client_id.client_id

/-- `CreateClient::client_type` accessor. -/
def CreateClient.clientType (c : CreateClient) : ClientType := c.client_type.client_type

/-- `CreateClient::consensus_height` accessor. -/
def CreateClient.consensusHeight (c : CreateClient) : Height :=
  c.consensus_height.consensus_height

/-- `CreateClient::event_type` accessor. -/
def CreateClient.eventType (_ : CreateClient) : String := CREATE_CLIENT_EVENT

/-- `impl From<CreateClient> for abci::Event`. -/
def CreateClient.toEvent (c : CreateClient) : Event :=
  { kind := CREATE_CLIENT_EVENT
    attributes :=
      [ c.client_id.toEventAttribute
      , c.client_type.toEventAttribute
      , c.consensus_height.toEventAttribute ] }

/-- `struct UpdateClient` from `events.rs` (the `consensus_height` field is
kept although deprecated, as in the source). -/
structure UpdateClient where
  client_id : ClientIdAttribute
  client_type : ClientTypeAttribute
  consensus_height : ConsensusHeightAttribute
  consensus_heights : ConsensusHeightsAttribute
  header : HeaderAttribute
deriving DecidableEq, Repr

/-- `UpdateClient::new`. -/
def UpdateClient.new (client_id : ClientId) (client_type : ClientType)
    (consensus_height : Height) (consensus_heights : List Height)
    (header : List Nat) : UpdateClient :=
  { client_id := { client_id := client_id }
    client_type := { client_type := client_type }
    consensus_height := { consensus_height := consensus_height }
    consensus_heights := { consensus_heights := consensus_heights }
    header := { header := header } }

/-- `UpdateClient::client_id` accessor. -/
def UpdateClient.clientId (u : UpdateClient) : ClientId := u.client_id.client_id

/-- `UpdateClient::client_type` accessor. -/
def UpdateClient.clientType (u : UpdateClient) : ClientType := u.client_type.client_type

/-- `UpdateClient::consensus_height` accessor. -/
def UpdateClient.consensusHeight (u : UpdateClient) : Height :=
  u.consensus_height.consensus_height

/-- `UpdateClient::consensus_heights` accessor. -/
def UpdateClient.consensusHeights (u : UpdateClient) : List Height :=
  u.consensus_heights.consensus_heights

/-- `UpdateClient::header` accessor. -/
def UpdateClient.headerBytes (u : UpdateClient) : List Nat := u.header.header

/-- `UpdateClient::event_type` accessor. -/
def UpdateClient.eventType (_ : UpdateClient) : String := UPDATE_CLIENT_EVENT

/-- `impl From<UpdateClient> for abci::Event`: the header attribute's UTF-8
step is the only fallible one, so the event is `none` exactly when that
step fails (the source's panic branch). -/
def UpdateClient.toEvent (u : UpdateClient) : Option Event :=
  (u.header.toEventAttribute).map (fun headerAttr =>
    { kind := UPDATE_CLIENT_EVENT
      attributes :=
        [ u.client_id.toEventAttribute
        , u.client_type.toEventAttribute
        , u.consensus_height.toEventAttribute
        , u.consensus_heights.toEventAttribute
        , headerAttr ] })

/-- `struct ClientMisbehaviour` from `events.rs`. -/
structure ClientMisbehaviour where
  client_id : ClientIdAttribute
  client_type : ClientTypeAttribute
deriving DecidableEq, Repr

/-- `ClientMisbehaviour::new`. -/
def ClientMisbehaviour.new (client_id : ClientId) (client_type : ClientType) :
    ClientMisbehaviour :=
  { client_id := { client_id := client_id }
    client_type := { client_type := client_type } }

/-- `impl From<ClientMisbehaviour> for abci::Event`. -/
def ClientMisbehaviour.toEvent (c : ClientMisbehaviour) : Event :=
  { kind := CLIENT_MISBEHAVIOUR_EVENT
    attributes := [c.client_id.toEventAttribute, c.client_type.toEventAttribute] }

/-- `struct UpgradeClient` from `events.rs`. -/
structure UpgradeClient where
  client_id : ClientIdAttribute
  client_type : ClientTypeAttribute
  consensus_height : ConsensusHeightAttribute
deriving DecidableEq, Repr

/-- `UpgradeClient::new`. -/
def UpgradeClient.new (client_id : ClientId) (client_type : ClientType)
    (consensus_height : Height) : UpgradeClient :=
  { client_id := { client_id := client_id }
    client_type := { client_type := client_type }
    consensus_height := { consensus_height := consensus_height } }

/-- `impl From<UpgradeClient> for abci::Event`. -/
def UpgradeClient.toEvent (u : UpgradeClient) : Event :=
  { kind := UPGRADE_CLIENT_EVENT
    attributes :=
      [ u.client_id.toEventAttribute
      , u.client_type.toEventAttribute
      , u.consensus_height.toEventAttribute ] }

/-- Connection identifier (`ConnectionId` from ics24_host): a validated
string wrapper; `as_str` and `Display` expose the wrapped string. -/
structure ConnectionId where
  val : String
deriving DecidableEq, Repr

/-- Whether a character may appear in an identifier. -/
def validIdentifierChar (c : Char) : Bool :=
  c.isAlphanum || c = '.' || c = '_' || c = '+' || c = '-' ||
    c = '#' || c = '[' || c = ']' || c = '<' || c = '>'

/-- Modelled from the spec: `ConnectionId::from_str` (the ics24_host
identifier validation is not under `src/`): identifiers are typed,
validated strings, and a malformed id string is an IdentifierError. The
model accepts a nonempty string of at most 64 identifier characters and
rejects anything else. -/
def ConnectionId.fromStr (s : String) : Option ConnectionId :=
  if s.length ≠ 0 ∧ s.length ≤ 64 ∧ s.data.all validIdentifierChar then
    some { val := s }
  else
    none

/-- Modelled from the spec: the state of a `ConnectionEnd` (ics03, not
under `src/`) is one of Init, TryOpen, Open. -/
inductive ConnectionState where
  | Init
  | TryOpen
  | Open
deriving DecidableEq, Repr

/-- Modelled from the spec: the counterparty of a `ConnectionEnd` (ics03,
not under `src/`): counterparty client id, optional counterparty
connection id, and the counterparty's commitment key namespace bytes. -/
structure Counterparty where
  clientId : ClientId
  connectionId : Option ConnectionId
  commitmentNamespace : List Nat
deriving DecidableEq, Repr

/-- Modelled from the spec: `ConnectionEnd` (ics03, not under `src/`):
state, local client id, counterparty, negotiated versions and delay
period. `client_id()` is its local-client accessor. -/
structure ConnectionEnd where
  state : ConnectionState
  clientId : ClientId
  counterparty : Counterparty
  versions : List String
  delayPeriodSecs : Nat
deriving DecidableEq, Repr

/-- Modelled from the spec: `Height::new(revision_number, revision_height)`
(`height.rs`, not under `src/`): constructing a height can fail with a
HeightError on an invalid height; following the repository convention a
zero index is the invalid case. -/
def Height.new (era index : Nat) : Option Height :=
  if index = 0 then none else some { era := era, index := index }

/-- `ClientConsensusStatePath::new(client_id, height)` from ics24_host. -/
structure ClientConsensusStatePath where
  clientId : ClientId
  height : Height
deriving DecidableEq, Repr

/-- The store-path constructors used by the connection query service
(`Path` from ics24_host, restricted to the variants `connection.rs`
builds). -/
inductive StorePath where
  | connection (connectionId : ConnectionId)
  | clientState (clientId : ClientId)
  | clientConsensusState (path : ClientConsensusStatePath)
  | clientConnection (clientId : ClientId)
deriving DecidableEq, Repr

/-- `tonic::Status` restricted to the constructors `connection.rs` uses:
`invalid_argument` and `not_found`, each with its message. -/
inductive Status where
  | invalidArgument (msg : String)
  | notFound (msg : String)
deriving DecidableEq, Repr

/-- Opaque encoded client state bytes (the service only moves them). -/
abbrev ClientStateBlob := List Nat

/-- Opaque encoded consensus state bytes (the service only moves them). -/
abbrev ConsensusStateBlob := List Nat

/-- The read-only host context the query service runs against
(`QueryContext + ProvableContext` of `connection.rs`): each capability is
a lookup that can fail, embedded as an `Option`-valued function. -/
structure QueryCtx where
  connection_end : ConnectionId → Option ConnectionEnd
  client_state : ClientId → Option ClientStateBlob
  consensus_state : ClientConsensusStatePath → Option ConsensusStateBlob
  host_height : Option Height
  get_proof : Height → StorePath → Option (List Nat)

/-- `QueryConnectionRequest`: the raw connection id string. -/
structure QueryConnectionRequest where
  connection_id : String
deriving DecidableEq, Repr

/-- `QueryConnectionResponse`. -/
structure QueryConnectionResponse where
  connection : Option ConnectionEnd
  proof : List Nat
  proof_height : Option Height
deriving DecidableEq, Repr

/-- `QueryConnectionClientStateRequest`: the raw connection id string. -/
structure QueryConnectionClientStateRequest where
  connection_id : String
deriving DecidableEq, Repr

/-- `IdentifiedClientState`. -/
structure IdentifiedClientState where
  client_id : String
  client_state : Option ClientStateBlob
deriving DecidableEq, Repr

/-- `QueryConnectionClientStateResponse`. -/
structure QueryConnectionClientStateResponse where
  identified_client_state : Option IdentifiedClientState
  proof : List Nat
  proof_height : Option Height
deriving DecidableEq, Repr

/-- `QueryConnectionConsensusStateRequest`: the raw connection id string
and the requested revision number/height. -/
structure QueryConnectionConsensusStateRequest where
  connection_id : String
  revision_number : Nat
  revision_height : Nat
deriving DecidableEq, Repr

/-- `QueryConnectionConsensusStateResponse`. -/
structure QueryConnectionConsensusStateResponse where
  consensus_state : Option ConsensusStateBlob
  client_id : String
  proof : List Nat
  proof_height : Option Height
deriving DecidableEq, Repr

/-- `ConnectionQueryServer::connection`: parse the id, look up the
connection end, the host height and the proof for the connection path at
the current height, failing with the source's `Status` at each step. -/
def ConnectionQueryServer.connection (ibc_context : QueryCtx)
    (request : QueryConnectionRequest) : Except Status QueryConnectionResponse := do
  let connectionId ← match ConnectionId.fromStr request.connection_id with
    | some cid => Except.ok cid
    | none => Except.error (Status.invalidArgument
        ("Invalid connection id: " ++ request.connection_id))
  let connectionEnd ← match ibc_context.connection_end connectionId with
    | some ce => Except.ok ce
    | none => Except.error (Status.notFound
        ("Connection end not found for connection " ++ connectionId.val))
  let currentHeight ← match ibc_context.host_height with
    | some h => Except.ok h
    | none => Except.error (Status.notFound "Current height not found")
  let proof ← match ibc_context.get_proof currentHeight
      (StorePath.connection connectionId) with
    | some p => Except.ok p
    | none => Except.error (Status.notFound
        ("Proof not found for connection path " ++ connectionId.val))
  Except.ok
    { connection := some connectionEnd
      proof := proof
      proof_height := some currentHeight }

/-- `ConnectionQueryServer::connection_client_state`: parse the id, look up
the connection end, then the client state of the connection's client, the
host height and the proof for the client state path. -/
def ConnectionQueryServer.connectionClientState (ibc_context : QueryCtx)
    (request : QueryConnectionClientStateRequest) :
    Except Status QueryConnectionClientStateResponse := do
  let connectionId ← match ConnectionId.fromStr request.connection_id with
    | some cid => Except.ok cid
    | none => Except.error (Status.invalidArgument
        ("Invalid connection id: " ++ request.connection_id))
  let connectionEnd ← match ibc_context.connection_end connectionId with
    | some ce => Except.ok ce
    | none => Except.error (Status.notFound
        ("Connection end not found for connection " ++ connectionId.val))
  let clientState ← match ibc_context.client_state connectionEnd.clientId with
    | some cs => Except.ok cs
    | none => Except.error (Status.notFound
        ("Client state not found for connection " ++ connectionId.val))
  let currentHeight ← match ibc_context.host_height with
    | some h => Except.ok h
    | none => Except.error (Status.notFound "Current height not found")
  let proof ← match ibc_context.get_proof currentHeight
      (StorePath.clientState connectionEnd.clientId) with
    | some p => Except.ok p
    | none => Except.error (Status.notFound
        ("Proof not found for client state path " ++ connectionEnd.clientId.val))
  Except.ok
    { identified_client_state := some
        { client_id := connectionEnd.clientId.val, client_state := some clientState }
      proof := proof
      proof_height := some currentHeight }

/-- `ConnectionQueryServer::connection_consensus_state`: parse the id, look
up the connection end, build the consensus path from the requested
revision pair, then look up the consensus state, the host height and the
proof for the consensus state path. -/
def ConnectionQueryServer.connectionConsensusState (ibc_context : QueryCtx)
    (request : QueryConnectionConsensusStateRequest) :
    Except Status QueryConnectionConsensusStateResponse := do
  let connectionId ← match ConnectionId.fromStr request.connection_id with
    | some cid => Except.ok cid
    | none => Except.error (Status.invalidArgument
        ("Invalid connection id: " ++ request.connection_id))
  let connectionEnd ← match ibc_context.connection_end connectionId with
    | some ce => Except.ok ce
    | none => Except.error (Status.notFound
        ("Connection end not found for connection " ++ connectionId.val))
  let height ← match Height.new request.revision_number request.revision_height with
    | some h => Except.ok h
    | none => Except.error (Status.invalidArgument
        ("Invalid height: " ++ toString request.revision_number ++ "-" ++
          toString request.revision_height))
  let consensusPath : ClientConsensusStatePath :=
    { clientId := connectionEnd.clientId, height := height }
  let consensusState ← match ibc_context.consensus_state consensusPath with
    | some cs => Except.ok cs
    | none => Except.error (Status.notFound
        ("Consensus state not found for connection " ++ connectionId.val))
  let currentHeight ← match ibc_context.host_height with
    | some h => Except.ok h
    | none => Except.error (Status.notFound "Current height not found")
  let proof ← match ibc_context.get_proof currentHeight
      (StorePath.clientConsensusState consensusPath) with
    | some p => Except.ok p
    | none => Except.error (Status.notFound
        ("Proof not found for consensus state path " ++ connectionEnd.clientId.val))
  Except.ok
    { consensus_state := some consensusState
      client_id := connectionEnd.clientId.val
      proof := proof
      proof_height := some currentHeight }

/-- Port identifier, a validated string wrapper. -/
structure PortId where
  val : String

/-- Channel identifier, a validated string wrapper. -/
structure ChannelId where
  val : String

/-- Modelled from the spec: the ICS-721 value types (`types` module of the
NFT-transfer application, not under `src/`) are opaque identifier or data
strings carried through untouched; each is embedded as a string wrapper. -/
structure TokenId where
  val : String

/-- Opaque token URI (see `TokenId`). -/
structure TokenUri where
  val : String

/-- Opaque token data (see `TokenId`). -/
structure TokenData where
  val : String

/-- Opaque class URI (see `TokenId`). -/
structure ClassUri where
  val : String

/-- Opaque class data (see `TokenId`). -/
structure ClassData where
  val : String

/-- Opaque transfer memo (see `TokenId`). -/
structure Memo where
  val : String

/-- Modelled from the spec: `PrefixedClassId` (ICS-721 `types` module, not
under `src/`): a base class identifier together with the trace of
(port, channel) hops it was transferred through. -/
structure PrefixedClassId where
  tracePath : List (String × String)
  baseClassId : String

/-- `NftTransferError`, kept opaque: the context methods only need a
distinguishable error value. -/
structure NftTransferError where
  msg : String

/-- The default implementation body of
`NftTransferValidationContext::class_hash_string` from `context.rs`: it
returns `None` for every prefixed class id. -/
def defaultClassHashString (_class_id : PrefixedClassId) : Option String :=
  none

/-- `trait NftTransferValidationContext` from `context.rs`, embedded as a
record of its methods over the associated types `AccountId`, `Nft` and
`NftClass`; `class_hash_string` carries the trait's default body, so an
instance built without overriding the field gets `defaultClassHashString`. -/
structure NftTransferValidationContext (AccountId Nft NftClass : Type) where
  get_port : Unit → Except NftTransferError PortId
  can_send_nft : Unit → Except NftTransferError Unit
  can_receive_nft : Unit → Except NftTransferError Unit
  create_or_update_class_validate :
    PrefixedClassId → ClassUri → ClassData → Except NftTransferError Unit
  escrow_nft_validate :
    AccountId → PortId → ChannelId → PrefixedClassId → TokenId → Memo →
      Except NftTransferError Unit
  unescrow_nft_validate :
    AccountId → PortId → ChannelId → PrefixedClassId → TokenId →
      Except NftTransferError Unit
  mint_nft_validate :
    AccountId → PrefixedClassId → TokenId → TokenUri → TokenData →
      Except NftTransferError Unit
  burn_nft_validate :
    AccountId → PrefixedClassId → TokenId → Memo → Except NftTransferError Unit
  class_hash_string : PrefixedClassId → Option String := defaultClassHashString
  get_nft : PrefixedClassId → TokenId → Except NftTransferError Nft
  get_nft_class : PrefixedClassId → Except NftTransferError NftClass

/-- A sample stored `ConnectionEnd`, used to exercise the query service on
concrete inputs. -/
def sampleConnectionEnd : ConnectionEnd :=
  { state := ConnectionState.Open
    clientId := { val := "07-tendermint-0" }
    counterparty :=
      { clientId := { val := "07-tendermint-1" }
        connectionId := some { val := "connection-1" }
        commitmentNamespace := [105, 98, 99] }
    versions := ["1"]
    delayPeriodSecs := 0 }

/-- A sample host context: `sampleConnectionEnd` is stored under
`connection-0` and nothing else, the host height is (0, 3), and a proof
is available for every path. -/
def sampleCtx : QueryCtx :=
  { connection_end := fun cid =>
      if cid.val = "connection-0" then some sampleConnectionEnd else none
    client_state := fun _ => none
    consensus_state := fun _ => none
    host_height := some { era := 0, index := 3 }
    get_proof := fun _ _ => some [1, 2, 3] }

/-- A sample NFT-transfer validation context that stubs every required
method and leaves `class_hash_string` at the trait's default. -/
def sampleNftCtx : NftTransferValidationContext Unit Unit Unit :=
  { get_port := fun _ => Except.ok { val := "transfer" }
    can_send_nft := fun _ => Except.ok ()
    can_receive_nft := fun _ => Except.ok ()
    create_or_update_class_validate := fun _ _ _ => Except.ok ()
    escrow_nft_validate := fun _ _ _ _ _ _ => Except.ok ()
    unescrow_nft_validate := fun _ _ _ _ _ => Except.ok ()
    mint_nft_validate := fun _ _ _ _ _ => Except.ok ()
    burn_nft_validate := fun _ _ _ _ => Except.ok ()
    get_nft := fun _ _ => Except.ok ()
    get_nft_class := fun _ => Except.ok () }

/-- The hexadecimal digit bytes produced for one nibble are ASCII. -/
theorem hexDigitByte_lt_128 : ∀ n < 16, hexDigitByte n < 128 := by decide

/-- The hexadecimal digit byte for one nibble decodes to the spec-side
lowercase digit character. -/
theorem hexDigit_ofNat : ∀ n < 16, Char.ofNat (hexDigitByte n) = lowercaseHexDigit n := by
  decide

/-- An ASCII byte at the head of a byte list decodes to its own character
followed by the decoding of the tail. -/
theorem utf8Chars_cons_ascii (b : Nat) (hb : b < 128) (l : List Nat) :
    utf8Chars (b :: l) = (utf8Chars l).map (fun cs => Char.ofNat b :: cs) := by
  rcases l with _ | ⟨c1, _ | ⟨c2, _ | ⟨c3, rest⟩⟩⟩ <;> simp [utf8Chars, hb]

/-- Hex-encoded bytes always decode as UTF-8, to the spec-side lowercase
hexadecimal characters. -/
theorem utf8Chars_hexEncode (bytes : List Nat) :
    utf8Chars (hexEncode bytes) = some (lowercaseHexChars bytes) := by
  induction bytes with
  | nil => rfl
  | cons b rest ih =>
    have h1 : b % 256 / 16 < 16 := Nat.div_lt_of_lt_mul (by omega)
    have h2 : b % 16 < 16 := by omega
    rw [hexEncode, utf8Chars_cons_ascii _ (hexDigitByte_lt_128 _ h1),
      utf8Chars_cons_ascii _ (hexDigitByte_lt_128 _ h2), ih]
    simp [lowercaseHexChars, hexDigit_ofNat _ h1, hexDigit_ofNat _ h2]

/-- `String::from_utf8` succeeds on hex-encoded bytes and returns the
spec-side lowercase hexadecimal string. -/
theorem stringFromUtf8_hexEncode (bytes : List Nat) :
    stringFromUtf8 (hexEncode bytes) = some (lowercaseHex bytes) := by
  rw [stringFromUtf8, utf8Chars_hexEncode]
  rfl

/-- The header attribute conversion yields the `header` key with the
spec-side lowercase hexadecimal value. -/
theorem headerAttribute_eq (a : HeaderAttribute) :
    a.toEventAttribute =
      some { key := HEADER_ATTRIBUTE_KEY, value := lowercaseHex a.header } := by
  rw [HeaderAttribute.toEventAttribute, stringFromUtf8_hexEncode]
  rfl

/-- The spec-side lowercase hexadecimal rendering has two characters per
input byte. -/
theorem lowercaseHexChars_length (bytes : List Nat) :
    (lowercaseHexChars bytes).length = 2 * bytes.length := by
  induction bytes with
  | nil => rfl
  | cons b rest ih => simp [lowercaseHexChars, ih]; omega

/-- C1: the create_client record built from client id `07-tendermint-0`,
client type `07-tendermint` and consensus height (era 0, index 5)
converts to an event of kind `create_client` whose attribute list is
exactly the three expected ordered (key, value) pairs. -/
theorem createClient_concrete_event :
    CreateClient.toEvent
        (CreateClient.new { val := "07-tendermint-0" } { val := "07-tendermint" }
          { era := 0, index := 5 }) =
      { kind := "create_client"
        attributes :=
          [ { key := "client_id", value := "07-tendermint-0" }
          , { key := "client_type", value := "07-tendermint" }
          , { key := "consensus_height", value := "0-5" } ] } := by
  rfl

/-- C2: every UpdateClient record converts to an emitted event of kind
`update_client` with exactly five attributes whose keys, in order, are
client_id, client_type, consensus_height, consensus_heights, header. -/
theorem updateClient_event_shape (u : UpdateClient) :
    ∃ e, u.toEvent = some e ∧ e.kind = "update_client" ∧
      e.attributes.map EventAttribute.key =
        ["client_id", "client_type", "consensus_height", "consensus_heights",
          "header"] := by
  refine
    ⟨{ kind := UPDATE_CLIENT_EVENT
       attributes :=
         [ u.client_id.toEventAttribute
         , u.client_type.toEventAttribute
         , u.consensus_height.toEventAttribute
         , u.consensus_heights.toEventAttribute
         , { key := HEADER_ATTRIBUTE_KEY, value := lowercaseHex u.header.header } ] },
      ?_, rfl, rfl⟩
  rw [UpdateClient.toEvent, headerAttribute_eq u.header]
  rfl

/-- C3: the consensus_heights attribute value renders each height as
`<era>-<index>` and joins the renderings with `,`; on the list
[(0, 5), (0, 7)] it renders as `0-5,0-7`, and on the empty list as the
empty string. -/
theorem consensusHeights_attribute_value (hs : List Height) :
    ConsensusHeightsAttribute.toEventAttribute { consensus_heights := hs } =
      { key := "consensus_heights"
        value := joinSep ","
          (hs.map (fun h => toString h.era ++ "-" ++ toString h.index)) } ∧
    ConsensusHeightsAttribute.toEventAttribute
        { consensus_heights := [{ era := 0, index := 5 }, { era := 0, index := 7 }] } =
      { key := "consensus_heights", value := "0-5,0-7" } ∧
    ConsensusHeightsAttribute.toEventAttribute { consensus_heights := [] } =
      { key := "consensus_heights", value := "" } :=
  ⟨rfl, rfl, rfl⟩

/-- C4: the header attribute emitted for any byte vector carries the
lowercase hexadecimal rendering of the bytes with no prefix: two hex
digit characters per byte, and the empty string for empty input. -/
theorem header_attribute_lowercase_hex (bytes : List Nat) :
    HeaderAttribute.toEventAttribute { header := bytes } =
      some { key := "header", value := lowercaseHex bytes } ∧
    (lowercaseHex bytes).length = 2 * bytes.length ∧
    lowercaseHex [] = "" := by
  refine ⟨headerAttribute_eq { header := bytes }, ?_, rfl⟩
  show (lowercaseHexChars bytes).length = 2 * bytes.length
  exact lowercaseHexChars_length bytes

/-- C5: when the request's connection id parses, a ConnectionEnd is stored
under it, the host height is available and a proof exists for the
connection path at that height, the single-connection query returns that
ConnectionEnd with that proof and a proof height equal to the host
height; when the ConnectionEnd is absent it returns a not-found error
and no connection data. -/
theorem connection_query_found_or_not (ctx : QueryCtx)
    (request : QueryConnectionRequest) (cid : ConnectionId)
    (hparse : ConnectionId.fromStr request.connection_id = some cid) :
    (∀ ce hh p, ctx.connection_end cid = some ce → ctx.host_height = some hh →
      ctx.get_proof hh (StorePath.connection cid) = some p →
      ConnectionQueryServer.connection ctx request =
        Except.ok { connection := some ce, proof := p, proof_height := some hh }) ∧
    (ctx.connection_end cid = none →
      ConnectionQueryServer.connection ctx request =
        Except.error (Status.notFound
          ("Connection end not found for connection " ++ cid.val))) := by
  constructor
  · intro ce hh p hce hhh hp
    simp [ConnectionQueryServer.connection, hparse, hce, hhh, hp, bind, Except.bind]
  · intro hce
    simp [ConnectionQueryServer.connection, hparse, hce, bind, Except.bind]

/-- C5 witness: on a concrete context storing one connection end under
`connection-0`, the query returns it with the proof and host height. -/
theorem connection_query_found_or_not_witness :
    ConnectionId.fromStr "connection-0" = some { val := "connection-0" } ∧
    sampleCtx.connection_end { val := "connection-0" } = some sampleConnectionEnd ∧
    sampleCtx.host_height = some { era := 0, index := 3 } ∧
    sampleCtx.get_proof { era := 0, index := 3 }
      (StorePath.connection { val := "connection-0" }) = some [1, 2, 3] ∧
    ConnectionQueryServer.connection sampleCtx { connection_id := "connection-0" } =
      Except.ok
        { connection := some sampleConnectionEnd
          proof := [1, 2, 3]
          proof_height := some { era := 0, index := 3 } } :=
  ⟨by decide, by decide, rfl, rfl,
    (connection_query_found_or_not sampleCtx { connection_id := "connection-0" }
        { val := "connection-0" } (by decide)).1
      sampleConnectionEnd { era := 0, index := 3 } [1, 2, 3] (by decide) rfl rfl⟩

/-- C6: on any request string that does not parse as a connection
identifier, the connection, connection_client_state and
connection_consensus_state queries all return the invalid-argument
error, whatever the store holds. -/
theorem malformed_connection_id_rejected (ctx : QueryCtx) (s : String)
    (rn rh : Nat) (hparse : ConnectionId.fromStr s = none) :
    ConnectionQueryServer.connection ctx { connection_id := s } =
      Except.error (Status.invalidArgument ("Invalid connection id: " ++ s)) ∧
    ConnectionQueryServer.connectionClientState ctx { connection_id := s } =
      Except.error (Status.invalidArgument ("Invalid connection id: " ++ s)) ∧
    ConnectionQueryServer.connectionConsensusState ctx
        { connection_id := s, revision_number := rn, revision_height := rh } =
      Except.error (Status.invalidArgument ("Invalid connection id: " ++ s)) := by
  refine ⟨?_, ?_, ?_⟩
  · simp [ConnectionQueryServer.connection, hparse, bind, Except.bind]
  · simp [ConnectionQueryServer.connectionClientState, hparse, bind, Except.bind]
  · simp [ConnectionQueryServer.connectionConsensusState, hparse, bind, Except.bind]

/-- C6 witness: the empty string is not a connection identifier and all
three queries reject it on a concrete, nonempty store. -/
theorem malformed_connection_id_rejected_witness :
    ConnectionId.fromStr "" = none ∧
    ConnectionQueryServer.connection sampleCtx { connection_id := "" } =
      Except.error (Status.invalidArgument ("Invalid connection id: " ++ "")) ∧
    ConnectionQueryServer.connectionClientState sampleCtx { connection_id := "" } =
      Except.error (Status.invalidArgument ("Invalid connection id: " ++ "")) ∧
    ConnectionQueryServer.connectionConsensusState sampleCtx
        { connection_id := "", revision_number := 0, revision_height := 0 } =
      Except.error (Status.invalidArgument ("Invalid connection id: " ++ "")) := by
  have h := malformed_connection_id_rejected sampleCtx "" 0 0 (by decide)
  exact ⟨by decide, h.1, h.2.1, h.2.2⟩

/-- C7: every client_misbehaviour event has kind `client_misbehaviour`
with exactly the ordered attribute keys client_id, client_type, and
every upgrade_client event has kind `upgrade_client` with exactly the
ordered attribute keys client_id, client_type, consensus_height. -/
theorem misbehaviour_and_upgrade_event_shape (id1 id2 : ClientId)
    (ty1 ty2 : ClientType) (h : Height) :
    (ClientMisbehaviour.new id1 ty1).toEvent =
      { kind := "client_misbehaviour"
        attributes :=
          [ { key := "client_id", value := id1.val }
          , { key := "client_type", value := ty1.val } ] } ∧
    (UpgradeClient.new id2 ty2 h).toEvent =
      { kind := "upgrade_client"
        attributes :=
          [ { key := "client_id", value := id2.val }
          , { key := "client_type", value := ty2.val }
          , { key := "consensus_height", value := h.render } ] } :=
  ⟨rfl, rfl⟩

/-- C8: converting a HeaderAttribute is total: the hex encoding of any
byte vector is valid UTF-8, so the UTF-8 step succeeds and the panic
branch (the `none` case of the embedding) is unreachable. -/
theorem headerAttribute_total (bytes : List Nat) :
    (stringFromUtf8 (hexEncode bytes)).isSome = true ∧
    (HeaderAttribute.toEventAttribute { header := bytes }).isSome = true := by
  refine ⟨?_, ?_⟩
  · rw [stringFromUtf8_hexEncode]
    rfl
  · rw [headerAttribute_eq]
    rfl

/-- C9: the event constructors and accessors round-trip: each of the
inputs of `CreateClient::new` and `UpdateClient::new` comes back
unchanged through the corresponding accessor. -/
theorem event_accessors_roundtrip (id : ClientId) (ty : ClientType)
    (h : Height) (hs : List Height) (hdr : List Nat) :
    (CreateClient.new id ty h).clientId = id ∧
    (CreateClient.new id ty h).clientType = ty ∧
    (CreateClient.new id ty h).consensusHeight = h ∧
    (UpdateClient.new id ty h hs hdr).clientId = id ∧
    (UpdateClient.new id ty h hs hdr).clientType = ty ∧
    (UpdateClient.new id ty h hs hdr).consensusHeight = h ∧
    (UpdateClient.new id ty h hs hdr).consensusHeights = hs ∧
    (UpdateClient.new id ty h hs hdr).headerBytes = hdr :=
  ⟨rfl, rfl, rfl, rfl, rfl, rfl, rfl, rfl⟩

/-- C10: a validation context whose `class_hash_string` is the trait's
default implementation returns `none` for every prefixed class id. -/
theorem default_class_hash_string (AccountId Nft NftClass : Type)
    (ctx : NftTransferValidationContext AccountId Nft NftClass)
    (hdefault : ctx.class_hash_string = defaultClassHashString)
    (class_id : PrefixedClassId) :
    ctx.class_hash_string class_id = none := by
  rw [hdefault]
  rfl

/-- C10 witness: a concrete context built without overriding the field
gets the default and reports no hashed class ID support. -/
theorem default_class_hash_string_witness :
    sampleNftCtx.class_hash_string = defaultClassHashString ∧
    sampleNftCtx.class_hash_string
      { tracePath := [("transfer", "channel-0")], baseClassId := "class-0" } = none :=
  ⟨rfl,
    default_class_hash_string Unit Unit Unit sampleNftCtx rfl
      { tracePath := [("transfer", "channel-0")], baseClassId := "class-0" }⟩

end Ibc
